import Mathlib

/-!
Verification of the authentication surface of termi-pics (`src/server/app`).

The routes in `src/server/app/routes/auth.py` are embedded shallowly: the
credential store becomes an explicit list of user records threaded through each
operation, HTTP exceptions and Python runtime errors become an explicit error
type, and each route handler becomes a total function returning the response
(or the error) together with the resulting store state.

The handlers acquire the store with `with supabase_client() as client:`, and
`supabase_client` (src/server/app/utils/supabase.py) is a generator function
with no `contextlib.contextmanager` decorator, so in Python that statement
raises `TypeError` before the generator body — including `create_client` —
ever runs. The embedding models this acquisition step explicitly
(`supabase_client_value`, `enterWith`) and keeps the code inside each `with`
block as a separate `*_store_block` definition, which the handlers reach only
if acquisition succeeds (it never does).

The modules `app/utils/auth.py` (token codec, password verifier),
`app/utils/db.py` (table handler) and `app/config.py` are collaborators whose
source is not part of the repository snapshot; they are modelled from the
specification, as marked on each definition.
-/

/-- Errors surfaced by the auth routes: FastAPI `HTTPException`s with their
status code and detail string, the token-codec failures, the OAuth exchange
failure raised by `response.raise_for_status()`, and the Python runtime errors
(`AttributeError`, `TypeError`) that unguarded code paths can raise.
`unknownDatabaseProvider` is the module-initialization error from
`app/utils/db.py`. -/
inductive AuthError where
  | httpError (status : Nat) (detail : String)
  | invalidToken
  | expiredToken
  | providerExchangeFailed
  | invalidAssertion
  | attributeError (msg : String)
  | typeError (msg : String)
  | unknownDatabaseProvider (msg : String)
deriving DecidableEq

/-- Modelled from the spec (§3 UserRecord): a row of the credential store.
`password` holds the stored hash and is `none` for "google"-provider records;
`avatar` is the optional picture URL; `last_active` is a timestamp. -/
structure UserRecord where
  user_uid : Nat
  email : String
  username : String
  password : Option Nat
  auth_provider : String
  avatar : Option String
  last_active : Nat
deriving DecidableEq

/-- Modelled from the spec (§2 Password Verifier): a vetted one-way hash.
Represented by an executable digest; only `hashPassword p = hashPassword p`
matters to the theorems below. -/
def hashPassword (s : String) : Nat :=
  s.data.foldl (fun a c => a * 131 + c.toNat) 17

/-- Modelled from the spec (§2 Password Verifier, used at auth.py line 69):
`verify_password(plain, stored)` compares the plaintext against the stored
hash; a record with no stored hash can match no password. -/
def verify_password (plain : String) (stored : Option Nat) : Bool :=
  match stored with
  | some h => hashPassword plain == h
  | none => false

/-- Modelled from the spec (§3 AccessToken/RefreshToken): the claims carried by
a token, a user identifier and an expiry instant. -/
structure TokenPayload where
  user_uid : Nat
  expiry : Nat
deriving DecidableEq

/-- Modelled from the spec (§4.1 Token Codec): the signature over a payload,
keyed by the process-wide secret. Any executable keyed digest serves; the
codec only ever recomputes and compares it. -/
def signPayload (secret : Nat) (p : TokenPayload) : Nat :=
  2 + secret * 131 + p.user_uid * 137 + p.expiry * 139

/-- Modelled from the spec (§4.1): a signed token — a payload together with its
signature under the signing secret. -/
structure Token where
  payload : TokenPayload
  sig : Nat
deriving DecidableEq

/-- Modelled from the spec (§4.1): access-token lifetime, minutes-to-hours
scale (30 minutes, in seconds). The source of `create_access_token` in
`app/utils/auth.py` is not in the snapshot. -/
def ACCESS_TOKEN_TTL : Nat := 1800

/-- Modelled from the spec (§4.1): refresh-token lifetime, days-to-weeks scale
(14 days, in seconds). -/
def REFRESH_TOKEN_TTL : Nat := 1209600

/-- Modelled from the spec (§4.1 `createAccessToken`, imported at auth.py line
20): mint a short-lived signed token embedding the user identifier. -/
def create_access_token (secret now user_uid : Nat) : Token :=
  let p : TokenPayload := ⟨user_uid, now + ACCESS_TOKEN_TTL⟩
  ⟨p, signPayload secret p⟩

/-- Modelled from the spec (§4.1 `createRefreshToken`, imported at auth.py line
21): same mechanism as access tokens with the longer expiry. -/
def create_refresh_token (secret now user_uid : Nat) : Token :=
  let p : TokenPayload := ⟨user_uid, now + REFRESH_TOKEN_TTL⟩
  ⟨p, signPayload secret p⟩

/-- Modelled from the spec (§4.1 `validateToken`, imported at auth.py line 22):
verify signature and expiry; `invalidToken` on a signature mismatch,
`expiredToken` past expiry, otherwise the payload. -/
def validate_token (secret now : Nat) (t : Token) : Except AuthError TokenPayload :=
  if t.sig = signPayload secret t.payload then
    if now < t.payload.expiry then .ok t.payload
    else .error .expiredToken
  else .error .invalidToken

/-- Modelled from the spec (§6 collaborator interfaces, `app/utils/db.py`
`SupabaseTable.is_email_exists`, called at auth.py lines 45 and 117): does a
record with this email and provider exist? The email argument is optional
because the google flow passes a possibly missing claim; store rows always
carry a concrete email, so a missing email matches nothing. -/
def is_email_exists (store : List UserRecord) (email : Option String)
    (provider : String) : Bool :=
  store.any fun r => some r.email == email && r.auth_provider == provider

/-- Modelled from the spec (`SupabaseTable.is_username_exists`, called at
auth.py line 47). -/
def is_username_exists (store : List UserRecord) (username provider : String) : Bool :=
  store.any fun r => r.username == username && r.auth_provider == provider

/-- Modelled from the spec (`SupabaseTable.get_user_creds`, called at auth.py
line 66): look up the record for an email, returning its stored hash and
user_uid (here, the whole record) or nothing. -/
def get_user_creds (store : List UserRecord) (email : String) : Option UserRecord :=
  store.find? fun r => r.email == email

/-- Modelled from the spec (`SupabaseTable.get_user_uid`, called at auth.py
line 118): the user_uid of the record with this email and provider. -/
def get_user_uid (store : List UserRecord) (email : Option String)
    (provider : String) : Option Nat :=
  (store.find? fun r => some r.email == email && r.auth_provider == provider).map
    (fun r => r.user_uid)

/-- A user identifier never carried by any record of the store: one past the
largest identifier in use. Used to model the store generating a fresh
user_uid on insert. -/
def freshUid (store : List UserRecord) : Nat :=
  store.foldr (fun r m => max m (r.user_uid + 1)) 0

/-- Modelled from the spec (`SupabaseTable.insert_new_user`, called at auth.py
lines 49 and 122): hash the password when one is given, insert one new record
with a fresh user_uid, and return that identifier with the new store. -/
def insert_new_user (store : List UserRecord) (email username : String)
    (password : Option String) (provider : String) (avatar : Option String)
    (now : Nat) : Nat × List UserRecord :=
  let uid := freshUid store
  (uid, store ++ [⟨uid, email, username, password.map hashPassword, provider, avatar, now⟩])

/-- Modelled from the spec (`SupabaseTable.update_last_active`, called at
auth.py lines 77 and 119): touch the last-active timestamp of the record with
this user_uid. -/
def update_last_active (store : List UserRecord) (uid now : Nat) : List UserRecord :=
  store.map fun r => if r.user_uid == uid then { r with last_active := now } else r

/-- Request body of POST /signup (`app/schemas.py` SignupRequest, modelled from
the spec §6). -/
structure SignupRequest where
  email : String
  username : String
  password : String
deriving DecidableEq

/-- Response body of POST /signup: the new user_uid and nothing else — in
particular no tokens. -/
structure SignupResponse where
  user_uid : Nat
deriving DecidableEq

/-- Request body of POST /login. -/
structure LoginRequest where
  email : String
  password : String
deriving DecidableEq

/-- Response body of POST /login, /google and /refresh-token/. -/
structure AuthTokenResponse where
  access_token : Token
  refresh_token : Token
  user_uid : Nat
deriving DecidableEq

/-- Response body of POST /verify-token. -/
structure VerificationResponse where
  user_uid : Nat
deriving DecidableEq

/-- Success status of POST /signup, from the route decorator at auth.py line
38 (`status_code=status.HTTP_201_CREATED`). -/
def SIGNUP_SUCCESS_STATUS : Nat := 201

/-- Success status of POST /google, from the route decorator at auth.py line
86. -/
def GOOGLE_SUCCESS_STATUS : Nat := 201

/-- A Python runtime value as seen by the `with` statements of auth.py:
either a generator object (which defines neither of the special methods of
the context-manager protocol) or an object that does implement that
protocol. -/
inductive PyValue where
  | generatorObject
  | contextManagerObject
deriving DecidableEq

/-- Whether a value implements Python's context-manager protocol. Generator
objects do not; wrapping a generator function with
`contextlib.contextmanager` would have produced one that does. -/
def supports_with : PyValue → Bool
  | .generatorObject => false
  | .contextManagerObject => true

/-- The value of `supabase_client()` (src/server/app/utils/supabase.py lines
6-11): the function body contains `yield` and no decorator wraps it, so
calling it returns a generator object — before any of its body (including
`create_client`) runs. -/
def supabase_client_value : PyValue := .generatorObject

/-- Entering a `with` statement on a value: Python raises `TypeError` when the
value does not implement the context-manager protocol. -/
def enterWith (v : PyValue) : Except AuthError Unit :=
  if supports_with v then .ok ()
  else .error (.typeError "generator object does not support the context manager protocol")

/-- The body of the `/signup` handler's `with` block (auth.py lines 44-54):
duplicate-email check, duplicate-username check, insert. Reached only if the
acquisition at line 43 succeeds; `signup` below shows it never does. -/
def signup_store_block (request : SignupRequest) (store : List UserRecord)
    (now : Nat) : Except AuthError SignupResponse × List UserRecord :=
  if is_email_exists store (some request.email) "email" then
    (.error (.httpError 400 "Email already registered"), store)
  else if is_username_exists store request.username "email" then
    (.error (.httpError 400 "Username already taken"), store)
  else
    let r := insert_new_user store request.email request.username
      (some request.password) "email" none now
    (.ok ⟨r.1⟩, r.2)

/-- The `/signup` handler (auth.py lines 38-56). Its first statement is
`with db_client() as client:` (line 43, `db_client` being `supabase_client`),
so the handler raises `TypeError` before the block runs; on that error path
the store is untouched. -/
def signup (request : SignupRequest) (store : List UserRecord) (now : Nat) :
    Except AuthError SignupResponse × List UserRecord :=
  match enterWith supabase_client_value with
  | .error e => (.error e, store)
  | .ok _ => signup_store_block request store now

/-- The body of the `/login` handler's `with` block (auth.py lines 65-77):
look up the record by email, check the password, mint both tokens, touch
last-active. Reached only if the acquisition at line 64 succeeds. -/
def login_store_block (secret : Nat) (request : LoginRequest)
    (store : List UserRecord) (now : Nat) :
    Except AuthError AuthTokenResponse × List UserRecord :=
  match get_user_creds store request.email with
  | none => (.error (.httpError 404 "User not found"), store)
  | some user_creds =>
    if verify_password request.password user_creds.password then
      let uid := user_creds.user_uid
      (.ok ⟨create_access_token secret now uid,
            create_refresh_token secret now uid, uid⟩,
       update_last_active store uid now)
    else
      (.error (.httpError 401 "Incorrect password"), store)

/-- The `/login` handler (auth.py lines 59-83). Its first statement is
`with supabase_client() as client:` (line 64), which raises `TypeError` before
`get_user_creds` can run. -/
def login (secret : Nat) (request : LoginRequest) (store : List UserRecord)
    (now : Nat) : Except AuthError AuthTokenResponse × List UserRecord :=
  match enterWith supabase_client_value with
  | .error e => (.error e, store)
  | .ok _ => login_store_block secret request store now

/-- The response of the provider's token endpoint as the handler sees it
(auth.py lines 99-104): its HTTP status and the optional `id_token` field of
its JSON body. -/
structure HttpResponse where
  status_code : Nat
  id_token : Option String
deriving DecidableEq

/-- `response.is_success` of httpx: a 2xx status. `raise_for_status()` raises
exactly when this is false. -/
def http_success (resp : HttpResponse) : Bool :=
  200 ≤ resp.status_code && resp.status_code < 300

/-- The identity assertion's verified claims (auth.py lines 109-114,
126): the optional email and picture claims of `id_info`. -/
structure IdInfo where
  email : Option String
  picture : Option String
deriving DecidableEq

/-- The local part of an email, `email.split("@")[0]` in the source (auth.py
line 121): the characters before the first "@", the whole string when no "@"
occurs. -/
def emailLocalPart (e : String) : String :=
  String.mk (e.data.takeWhile fun c => c != '@')

/-- The body of the `/google` handler's `with` block (auth.py lines 116-127),
returning the user_uid and the new store. Faithful to the source, it has no
missing-email guard: a missing email claim matches no record and then
`email.split("@")` raises `AttributeError` on `None`. Reached only if the
acquisition at line 115 succeeds; `continue_with_google` shows it never
does. -/
def google_store_block (id_info : IdInfo) (store : List UserRecord)
    (now : Nat) : Except AuthError (Nat × List UserRecord) :=
  let email := id_info.email
  if is_email_exists store email "google" then
    let uid := (get_user_uid store email "google").getD 0
    .ok (uid, update_last_active store uid now)
  else
    match email with
    | none => .error (.attributeError "NoneType object has no attribute split")
    | some e =>
      let username := emailLocalPart e
      .ok (insert_new_user store e username none "google" id_info.picture now)

/-- The `/google` handler (auth.py lines 86-136). The external calls are
inputs: `resp` is the token-endpoint response, and `verify` is the outcome of
`id_token.verify_oauth2_token` on a given assertion string (an `Except`
because verification can reject the assertion). In source order:
`raise_for_status()` (line 101), the missing-id_token check (lines 104-108),
assertion verification (lines 109-113), then `with supabase_client() as
client:` (line 115) — which raises `TypeError`, so the store block and the
token minting below it (lines 129-130) are unreachable. -/
def continue_with_google (secret now : Nat)
    (verify : String → Except AuthError IdInfo) (resp : HttpResponse)
    (store : List UserRecord) :
    Except AuthError AuthTokenResponse × List UserRecord :=
  if http_success resp then
    match resp.id_token with
    | none => (.error (.httpError 400 "Missing id_token in response."), store)
    | some id_token_value =>
      match verify id_token_value with
      | .error e => (.error e, store)
      | .ok id_info =>
        match enterWith supabase_client_value with
        | .error e => (.error e, store)
        | .ok _ =>
          match google_store_block id_info store now with
          | .error e => (.error e, store)
          | .ok (uid, store') =>
            (.ok ⟨create_access_token secret now uid,
                  create_refresh_token secret now uid, uid⟩, store')
  else
    (.error .providerExchangeFailed, store)

/-- The `/verify-token` handler (auth.py lines 139-149): validate the token
and return its user_uid. No store access, no `with`. -/
def verify_token (secret now : Nat) (token : Token) :
    Except AuthError VerificationResponse :=
  match validate_token secret now token with
  | .error e => .error e
  | .ok payload => .ok ⟨payload.user_uid⟩

/-- The `/refresh-token/` handler (auth.py lines 152-166): validate the
presented token, mint a new access token for its user_uid, and echo the
presented token back unchanged as the refresh token. No store access, no
`with`. -/
def refresh_token (secret now : Nat) (token : Token) :
    Except AuthError AuthTokenResponse :=
  match validate_token secret now token with
  | .error e => .error e
  | .ok payload =>
    let uid := payload.user_uid
    .ok ⟨create_access_token secret now uid, token, uid⟩

/-- The database choices the module-level `match DATABASE_PROVIDER` at auth.py
lines 28-33 can select: only the Supabase client/handler pair. -/
inductive DbChoice where
  | supabaseChoice
deriving DecidableEq

/-- The module-level provider selection (auth.py lines 28-33): "supabase"
selects the Supabase client and table handler; any other value raises
`UnknownDatabaseProvider` at import time, before the router or any route is
defined. -/
def select_db_provider (provider : String) : Except AuthError DbChoice :=
  if provider = "supabase" then .ok .supabaseChoice
  else .error (.unknownDatabaseProvider ("Unknown database provider: " ++ provider))

/-- The `/signup` handler behind its acquisition step made explicit at the
call boundary: auth.py line 43 is `with db_client() as client:`, and
`db_client` is `supabase_client`. Kept as the subject of the resource-protocol
property; `signup` models the same acquisition internally, so the error
propagates identically. -/
def signup_with_acquisition (request : SignupRequest) (store : List UserRecord)
    (now : Nat) : Except AuthError SignupResponse × List UserRecord :=
  match enterWith supabase_client_value with
  | .error e => (.error e, store)
  | .ok _ => signup request store now

deriving instance DecidableEq for Except

/-- C1: validating a freshly created access token round-trips — for every
user identifier u, `validate_token` on `create_access_token u` succeeds with a
payload whose user_uid is u, and the /verify-token handler applied to that
token returns a response carrying u. -/
theorem validate_create_roundtrip (secret now u : Nat) :
    validate_token secret now (create_access_token secret now u) =
      .ok ⟨u, now + ACCESS_TOKEN_TTL⟩ ∧
    verify_token secret now (create_access_token secret now u) = .ok ⟨u⟩ := by
  have hlt : now < now + ACCESS_TOKEN_TTL := by
    simp [ACCESS_TOKEN_TTL]
  constructor
  · simp [validate_token, create_access_token, hlt]
  · simp [verify_token, validate_token, create_access_token, hlt]

/-- C2: for every token that validates to a payload carrying user identifier
u, the /refresh-token/ handler returns a newly minted access token that
independently validates to u, returns u as user_uid, and echoes back the very
token value that was presented — the refresh token is never rotated. -/
theorem refresh_token_spec (secret now : Nat) (tok : Token) (p : TokenPayload)
    (h : validate_token secret now tok = .ok p) :
    refresh_token secret now tok =
      .ok ⟨create_access_token secret now p.user_uid, tok, p.user_uid⟩ ∧
    validate_token secret now (create_access_token secret now p.user_uid) =
      .ok ⟨p.user_uid, now + ACCESS_TOKEN_TTL⟩ := by
  have hlt : now < now + ACCESS_TOKEN_TTL := by
    simp [ACCESS_TOKEN_TTL]
  constructor
  · simp [refresh_token, h]
  · simp [validate_token, create_access_token, hlt]

/-- Witness for C2 at a concrete refresh token for user 7. -/
theorem refresh_token_spec_witness :
    validate_token 1 0 (create_refresh_token 1 0 7) =
      .ok ⟨7, 0 + REFRESH_TOKEN_TTL⟩ ∧
    refresh_token 1 0 (create_refresh_token 1 0 7) =
      .ok ⟨create_access_token 1 0 7, create_refresh_token 1 0 7, 7⟩ := by
  have h : validate_token 1 0 (create_refresh_token 1 0 7) =
      .ok ⟨7, 0 + REFRESH_TOKEN_TTL⟩ := by decide
  exact ⟨h, (refresh_token_spec 1 0 (create_refresh_token 1 0 7) ⟨7, 0 + REFRESH_TOKEN_TTL⟩ h).1⟩

/-- C8: whenever the provider token-endpoint response is not a success, the
/google handler fails with the exchange error, for every verification oracle
(no identity assertion is processed) and leaves the store untouched (no record
created, no tokens issued). -/
theorem google_exchange_failure_spec (secret now : Nat)
    (verify : String → Except AuthError IdInfo) (resp : HttpResponse)
    (store : List UserRecord) (h : http_success resp = false) :
    continue_with_google secret now verify resp store =
      (.error .providerExchangeFailed, store) := by
  simp [continue_with_google, h]

/-- Witness for C8 at a concrete 500 response. -/
theorem google_exchange_failure_witness :
    http_success ⟨500, some "t"⟩ = false ∧
    continue_with_google 1 0 (fun _ => .ok ⟨some "a@b.c", none⟩) ⟨500, some "t"⟩ [] =
      (.error .providerExchangeFailed, []) :=
  ⟨rfl, google_exchange_failure_spec 1 0 _ _ [] rfl⟩

/-- C10: the module-level provider selection rejects every value other than
"supabase" with `UnknownDatabaseProvider` (so no route is ever defined over an
unrecognized backend), selects the Supabase pair for "supabase", and the
Supabase pair is the only selection any subsequent operation can run
against. -/
theorem select_db_provider_spec (provider : String) :
    (provider ≠ "supabase" →
      select_db_provider provider =
        .error (.unknownDatabaseProvider ("Unknown database provider: " ++ provider))) ∧
    select_db_provider "supabase" = .ok .supabaseChoice ∧
    ∀ c : DbChoice, c = .supabaseChoice := by
  refine ⟨fun h => ?_, ?_, fun c => by cases c; rfl⟩
  · simp [select_db_provider, h]
  · simp [select_db_provider]

/-- Witness for C10 at the concrete provider "mysql". -/
theorem select_db_provider_spec_witness :
    ("mysql" : String) ≠ "supabase" ∧
    select_db_provider "mysql" =
      .error (.unknownDatabaseProvider ("Unknown database provider: " ++ "mysql")) ∧
    select_db_provider "supabase" = .ok .supabaseChoice :=
  ⟨by decide, (select_db_provider_spec "mysql").1 (by decide),
   (select_db_provider_spec "supabase").2.1⟩

/-- C9: the source's acquisition step itself fails — `supabase_client` is an
undecorated generator function, so `with db_client() as client:` raises
`TypeError` on every request before any connection is created or any store
operation runs; the scoped acquire/release the spec describes never
executes. -/
theorem signup_acquisition_raises_type_error (request : SignupRequest)
    (store : List UserRecord) (now : Nat) :
    signup_with_acquisition request store now =
      (.error (.typeError "generator object does not support the context manager protocol"),
       store) := rfl

/-- C3: contrary to the claim, every /login request fails before the store is
read: the handler's first statement, `with supabase_client() as client:`
(auth.py line 64), raises `TypeError` because `supabase_client` is an
undecorated generator. No 404, no 401 and no tokens are ever produced; the
store is returned unchanged. The claimed branch behavior lives only in the
unreachable block (`login_store_block_spec` below). -/
theorem login_always_raises_type_error (secret : Nat) (request : LoginRequest)
    (store : List UserRecord) (now : Nat) :
    login secret request store now =
      (.error (.typeError "generator object does not support the context manager protocol"),
       store) := rfl

/-- C4: at a request whose email (and even username) duplicates an existing
email-provider record, /signup raises `TypeError` at the `with` on auth.py
line 43 before the duplicate-email check can run: the handler never reports
"Email already registered". -/
theorem signup_duplicate_email_raises_type_error :
    signup ⟨"a@x.com", "alice", "pw2"⟩
      [⟨1, "a@x.com", "alice", some (hashPassword "pw"), "email", none, 0⟩] 5 =
      (.error (.typeError "generator object does not support the context manager protocol"),
       [⟨1, "a@x.com", "alice", some (hashPassword "pw"), "email", none, 0⟩]) := rfl

/-- C5: at a request whose email and username are both unused, /signup still
raises `TypeError` at the `with` on auth.py line 43: it never succeeds with
201, inserts no record, and returns no user_uid. -/
theorem signup_fresh_raises_type_error :
    signup ⟨"a@x.com", "alice", "pw1"⟩ [] 5 =
      (.error (.typeError "generator object does not support the context manager protocol"),
       []) := rfl

/-- C6: a verified identity assertion with no email claim does not produce
`MissingEmailClaim` — no such guard exists in the handler. The request dies
with `TypeError` at the `with` on auth.py line 115, before any store access
(the lookup at line 117 and the `email.split` crash at line 121 are dead
code; see `google_store_block_missing_email_crashes`). -/
theorem google_missing_email_raises_type_error :
    continue_with_google 1 0 (fun _ => .ok ⟨none, some "pic"⟩) ⟨200, some "assertion"⟩
      [⟨1, "bob@x.com", "bob", none, "google", none, 0⟩] =
      (.error (.typeError "generator object does not support the context manager protocol"),
       [⟨1, "bob@x.com", "bob", none, "google", none, 0⟩]) := by decide

/-- C7: contrary to the claim, no /google login ever creates or reuses a
record: even with a successful exchange and a verified assertion carrying an
email, the handler raises `TypeError` at the `with` on auth.py line 115
before the store is consulted, so the create-then-reuse idempotency is
unreachable (it holds only of the dead block, `google_store_block_idempotent`
below). -/
theorem google_verified_email_raises_type_error :
    continue_with_google 1 11 (fun _ => .ok ⟨some "alice@x.com", some "p1"⟩)
      ⟨200, some "t1"⟩ [] =
      (.error (.typeError "generator object does not support the context manager protocol"),
       []) := by decide

/-- The `with` block of /signup, taken on its own, does implement the
spec's duplicate-email rule: if the email already belongs to an
email-provider record it reports the duplicate-email error first, whatever
the username, and leaves the store unchanged. The handler never reaches this
block. -/
theorem signup_store_block_duplicate_email (request : SignupRequest)
    (store : List UserRecord) (now : Nat)
    (h : is_email_exists store (some request.email) "email" = true) :
    signup_store_block request store now =
      (.error (.httpError 400 "Email already registered"), store) := by
  simp [signup_store_block, h]

/-- The duplicate-email rule of the block exercised at a store whose record
duplicates both the email and the username of the request. -/
theorem signup_store_block_duplicate_email_demo :
    is_email_exists [⟨1, "a@x.com", "alice", some (hashPassword "pw"), "email", none, 0⟩]
      (some "a@x.com") "email" = true ∧
    signup_store_block ⟨"a@x.com", "alice", "pw2"⟩
      [⟨1, "a@x.com", "alice", some (hashPassword "pw"), "email", none, 0⟩] 5 =
      (.error (.httpError 400 "Email already registered"),
       [⟨1, "a@x.com", "alice", some (hashPassword "pw"), "email", none, 0⟩]) :=
  ⟨by decide, signup_store_block_duplicate_email _ _ 5 (by decide)⟩

/-- The `with` block of /signup, taken on its own, does implement the spec's
success rule: fresh email and username insert exactly one "email"-provider
record with the hashed password and return its fresh user_uid, no tokens.
The handler never reaches this block. -/
theorem signup_store_block_fresh (request : SignupRequest)
    (store : List UserRecord) (now : Nat)
    (he : is_email_exists store (some request.email) "email" = false)
    (hu : is_username_exists store request.username "email" = false) :
    signup_store_block request store now =
      (.ok ⟨freshUid store⟩,
       store ++ [⟨freshUid store, request.email, request.username,
                  some (hashPassword request.password), "email", none, now⟩]) ∧
    SIGNUP_SUCCESS_STATUS = 201 := by
  refine ⟨?_, rfl⟩
  simp [signup_store_block, he, hu, insert_new_user]

/-- The success rule of the /signup block exercised at the empty store. -/
theorem signup_store_block_fresh_demo :
    signup_store_block ⟨"a@x.com", "alice", "pw1"⟩ [] 5 =
      (.ok ⟨freshUid []⟩,
       [] ++ [⟨freshUid [], "a@x.com", "alice", some (hashPassword "pw1"), "email", none, 5⟩]) :=
  (signup_store_block_fresh ⟨"a@x.com", "alice", "pw1"⟩ [] 5 (by decide) (by decide)).1

/-- The `with` block of /login, taken on its own, does implement the spec's
three branches: 404 when no record matches, 401 with no tokens and an
unchanged store when the hash comparison fails, and token issuance for the
record's user_uid plus a last-active touch on the correct pair. The handler
never reaches this block. -/
theorem login_store_block_spec (secret now : Nat) (request : LoginRequest)
    (store : List UserRecord) :
    (get_user_creds store request.email = none →
      login_store_block secret request store now =
        (.error (.httpError 404 "User not found"), store)) ∧
    (∀ user_creds, get_user_creds store request.email = some user_creds →
      verify_password request.password user_creds.password = false →
      login_store_block secret request store now =
        (.error (.httpError 401 "Incorrect password"), store)) ∧
    (∀ user_creds, get_user_creds store request.email = some user_creds →
      verify_password request.password user_creds.password = true →
      login_store_block secret request store now =
        (.ok ⟨create_access_token secret now user_creds.user_uid,
              create_refresh_token secret now user_creds.user_uid,
              user_creds.user_uid⟩,
         update_last_active store user_creds.user_uid now) ∧
      validate_token secret now (create_access_token secret now user_creds.user_uid) =
        .ok ⟨user_creds.user_uid, now + ACCESS_TOKEN_TTL⟩ ∧
      validate_token secret now (create_refresh_token secret now user_creds.user_uid) =
        .ok ⟨user_creds.user_uid, now + REFRESH_TOKEN_TTL⟩) := by
  have hlta : now < now + ACCESS_TOKEN_TTL := by
    simp [ACCESS_TOKEN_TTL]
  have hltr : now < now + REFRESH_TOKEN_TTL := by
    simp [REFRESH_TOKEN_TTL]
  refine ⟨fun h => ?_, fun c hc hv => ?_, fun c hc hv => ⟨?_, ?_, ?_⟩⟩
  · simp [login_store_block, h]
  · simp [login_store_block, hc, hv]
  · simp [login_store_block, hc, hv]
  · simp [validate_token, create_access_token, hlta]
  · simp [validate_token, create_refresh_token, hltr]

/-- The three /login block branches exercised at concrete stores. -/
theorem login_store_block_spec_demo :
    (login_store_block 1 ⟨"a@x.com", "pw1"⟩ [] 5 =
       (.error (.httpError 404 "User not found"), [])) ∧
    (login_store_block 1 ⟨"a@x.com", "wrong"⟩
       [⟨3, "a@x.com", "alice", some (hashPassword "pw1"), "email", none, 0⟩] 5 =
       (.error (.httpError 401 "Incorrect password"),
        [⟨3, "a@x.com", "alice", some (hashPassword "pw1"), "email", none, 0⟩])) ∧
    (login_store_block 1 ⟨"a@x.com", "pw1"⟩
       [⟨3, "a@x.com", "alice", some (hashPassword "pw1"), "email", none, 0⟩] 5 =
       (.ok ⟨create_access_token 1 5 3, create_refresh_token 1 5 3, 3⟩,
        update_last_active
          [⟨3, "a@x.com", "alice", some (hashPassword "pw1"), "email", none, 0⟩] 3 5)) :=
  ⟨(login_store_block_spec 1 5 ⟨"a@x.com", "pw1"⟩ []).1 (by decide),
   (login_store_block_spec 1 5 ⟨"a@x.com", "wrong"⟩
      [⟨3, "a@x.com", "alice", some (hashPassword "pw1"), "email", none, 0⟩]).2.1
      ⟨3, "a@x.com", "alice", some (hashPassword "pw1"), "email", none, 0⟩
      (by decide) (by decide),
   ((login_store_block_spec 1 5 ⟨"a@x.com", "pw1"⟩
      [⟨3, "a@x.com", "alice", some (hashPassword "pw1"), "email", none, 0⟩]).2.2
      ⟨3, "a@x.com", "alice", some (hashPassword "pw1"), "email", none, 0⟩
      (by decide) (by decide)).1⟩

/-- Even the dead /google block has no `MissingEmailClaim` guard: were it
reachable, a missing email claim would run the existence check against the
store (matching nothing) and then crash with `AttributeError` at
`email.split("@")` (auth.py line 121). -/
theorem google_store_block_missing_email_crashes :
    google_store_block ⟨none, some "pic"⟩
      [⟨1, "bob@x.com", "bob", none, "google", none, 0⟩] 0 =
      .error (.attributeError "NoneType object has no attribute split") := by decide

/-- Helper: when the email-existence check fails for (e, provider), the store
has no record matching that email and provider. -/
theorem find?_none_of_not_exists (store : List UserRecord) (e provider : String)
    (h : is_email_exists store (some e) provider = false) :
    (store.find? fun r => some r.email == some e && r.auth_provider == provider) = none := by
  rw [List.find?_eq_none]
  intro x hx
  simp only [is_email_exists, List.any_eq_false] at h
  exact h x hx

/-- The `with` block of /google, taken on its own, is idempotent per email as
the spec describes: the first call on a store with no "google" record for e
appends exactly one record (provider "google", username the local part of e,
no password, the picture claim as avatar) under a fresh user_uid; a second
call with the same email inserts nothing, returns the same user_uid and only
touches that record's last-active. The handler never reaches this block. -/
theorem google_store_block_idempotent (now1 now2 : Nat) (store : List UserRecord)
    (e : String) (pic1 pic2 : Option String)
    (hfresh : is_email_exists store (some e) "google" = false) :
    google_store_block ⟨some e, pic1⟩ store now1 =
      .ok (freshUid store,
           store ++ [⟨freshUid store, e, emailLocalPart e, none, "google", pic1, now1⟩]) ∧
    google_store_block ⟨some e, pic2⟩
        (store ++ [⟨freshUid store, e, emailLocalPart e, none, "google", pic1, now1⟩]) now2 =
      .ok (freshUid store,
           update_last_active
             (store ++ [⟨freshUid store, e, emailLocalPart e, none, "google", pic1, now1⟩])
             (freshUid store) now2) := by
  have hnone := find?_none_of_not_exists store e "google" hfresh
  constructor
  · simp [google_store_block, hfresh, insert_new_user]
  · have hex : is_email_exists
        (store ++ [⟨freshUid store, e, emailLocalPart e, none, "google", pic1, now1⟩])
        (some e) "google" = true := by
      simp [is_email_exists]
    have huid : get_user_uid
        (store ++ [⟨freshUid store, e, emailLocalPart e, none, "google", pic1, now1⟩])
        (some e) "google" = some (freshUid store) := by
      unfold get_user_uid
      rw [List.find?_append, hnone]
      simp
    simp [google_store_block, hex, huid]

/-- The /google block idempotency exercised twice from the empty store. -/
theorem google_store_block_idempotent_demo :
    google_store_block ⟨some "alice@x.com", some "p1"⟩ [] 11 =
      .ok (0, [⟨0, "alice@x.com", "alice", none, "google", some "p1", 11⟩]) ∧
    google_store_block ⟨some "alice@x.com", none⟩
        [⟨0, "alice@x.com", "alice", none, "google", some "p1", 11⟩] 22 =
      .ok (0, update_last_active
        [⟨0, "alice@x.com", "alice", none, "google", some "p1", 11⟩] 0 22) :=
  google_store_block_idempotent 11 22 [] "alice@x.com" (some "p1") none (by decide)
